import Mathlib

/-!
Shallow embedding of the Stripe → Meta Conversions API bridge
(`server.js` and the legacy duplicate implementation), together with
theorems checking the design-spec claims against it.

JavaScript semantics conventions used throughout:
* `undefined` / `null` string-ish values are `Option String` with `none`;
  JS truthiness of a string is "present and non-empty".
* `x || y` on strings is `jsOrStr` / `jsOrO` (falls back on falsy);
  `x ?? y` on numbers is `Option.orElse` (falls back only on nullish).
* Machine numbers that the code only treats as integers are `Int`;
  normalized monetary values are `ℚ` (the code divides by 100).
-/

/-! ## JS value helpers -/

def jsTruthyOpt : Option String → Bool
  | some s => s ≠ ""
  | none => false

def jsOrStr (a : Option String) (d : String) : String :=
  match a with
  | some s => if s = "" then d else s
  | none => d

def jsOrO (a b : Option String) : Option String :=
  if jsTruthyOpt a then a else b

def jsTruthyInt : Option Int → Bool
  | some n => n ≠ 0
  | none => false

def jsWhitespace (c : Char) : Bool :=
  c = ' ' || c = '\t' || c = '\n' || c = '\r'

def jsTrim (s : String) : String :=
  String.mk (((s.toList.dropWhile jsWhitespace).reverse.dropWhile jsWhitespace).reverse)

def asciiLowerChar (c : Char) : Char :=
  if 65 ≤ c.toNat && c.toNat ≤ 90 then Char.ofNat (c.toNat + 32) else c

def asciiLower (s : String) : String :=
  String.mk (s.toList.map asciiLowerChar)

def asciiUpperChar (c : Char) : Char :=
  if 97 ≤ c.toNat && c.toNat ≤ 122 then Char.ofNat (c.toNat - 32) else c

def asciiUpper (s : String) : String :=
  String.mk (s.toList.map asciiUpperChar)

/-! ## SHA-256 (executable model of `crypto.createHash('sha256')`) -/

def w32 (n : Nat) : Nat := n % 4294967296

def rotr (k n : Nat) : Nat := w32 ((n >>> k) ||| (n <<< (32 - k)))

def utf8Bytes (c : Char) : List Nat :=
  let n := c.toNat
  if n < 128 then [n]
  else if n < 2048 then [192 + n / 64, 128 + n % 64]
  else if n < 65536 then [224 + n / 4096, 128 + (n / 64) % 64, 128 + n % 64]
  else [240 + n / 262144, 128 + (n / 4096) % 64, 128 + (n / 64) % 64, 128 + n % 64]

def strBytes (s : String) : List Nat :=
  (s.toList.map utf8Bytes).flatten

def beBytes : Nat → Nat → List Nat
  | 0, _ => []
  | k + 1, n => beBytes k (n / 256) ++ [n % 256]

def beWord (bs : List Nat) : Nat :=
  bs.foldl (fun a b => a * 256 + b) 0

def padMessage (msg : List Nat) : List Nat :=
  let z := (120 - ((msg.length + 1) % 64)) % 64
  msg ++ 128 :: (List.replicate z 0 ++ beBytes 8 (msg.length * 8))

def chunksOfAux (n : Nat) : Nat → List Nat → List (List Nat)
  | 0, _ => []
  | _, [] => []
  | fuel + 1, l => (l.take n) :: chunksOfAux n fuel (l.drop n)

def chunksOf (n : Nat) (l : List Nat) : List (List Nat) :=
  chunksOfAux n l.length l

def scheduleStep (w : Array Nat) (i : Nat) : Array Nat :=
  let x15 := w.getD (i - 15) 0
  let x2 := w.getD (i - 2) 0
  let s0 := (rotr 7 x15) ^^^ (rotr 18 x15) ^^^ (x15 >>> 3)
  let s1 := (rotr 17 x2) ^^^ (rotr 19 x2) ^^^ (x2 >>> 10)
  w.push (w32 (w.getD (i - 16) 0 + s0 + w.getD (i - 7) 0 + s1))

def buildSchedule (ws : List Nat) : Array Nat :=
  (List.range 48).foldl (fun w j => scheduleStep w (j + 16)) ws.toArray

structure Hash8 where
  a : Nat
  b : Nat
  c : Nat
  d : Nat
  e : Nat
  f : Nat
  g : Nat
  h : Nat
deriving Repr, DecidableEq

def compressRound (st : Hash8) (k w : Nat) : Hash8 :=
  let s1 := (rotr 6 st.e) ^^^ (rotr 11 st.e) ^^^ (rotr 25 st.e)
  let ch := (st.e &&& st.f) ^^^ ((st.e ^^^ 4294967295) &&& st.g)
  let t1 := w32 (st.h + s1 + ch + k + w)
  let s0 := (rotr 2 st.a) ^^^ (rotr 13 st.a) ^^^ (rotr 22 st.a)
  let mj := (st.a &&& st.b) ^^^ (st.a &&& st.c) ^^^ (st.b &&& st.c)
  let t2 := w32 (s0 + mj)
  ⟨w32 (t1 + t2), st.a, st.b, st.c, w32 (st.d + t1), st.e, st.f, st.g⟩

def kTable : List Nat :=
  [1116352408, 1899447441, 3049323471, 3921009573, 961987163,
   1508970993, 2453635748, 2870763221, 3624381080, 310598401,
   607225278, 1426881987, 1925078388, 2162078206, 2614888103,
   3248222580, 3835390401, 4022224774, 264347078, 604807628,
   770255983, 1249150122, 1555081692, 1996064986, 2554220882,
   2821834349, 2952996808, 3210313671, 3336571891, 3584528711,
   113926993, 338241895, 666307205, 773529912, 1294757372,
   1396182291, 1695183700, 1986661051, 2177026350, 2456956037,
   2730485921, 2820302411, 3259730800, 3345764771, 3516065817,
   3600352804, 4094571909, 275423344, 430227734, 506948616,
   659060556, 883997877, 958139571, 1322822218, 1537002063,
   1747873779, 1955562222, 2024104815, 2227730452, 2361852424,
   2428436474, 2756734187, 3204031479, 3329325298]

def initHash : Hash8 :=
  ⟨1779033703, 3144134277, 1013904242, 2773480762,
   1359893119, 2600822924, 528734635, 1541459225⟩

def processChunk (st : Hash8) (chunk : List Nat) : Hash8 :=
  let ws := buildSchedule ((chunksOf 4 chunk).map beWord)
  let t := (List.range 64).foldl (fun s i => compressRound s (kTable.getD i 0) (ws.getD i 0)) st
  ⟨w32 (st.a + t.a), w32 (st.b + t.b), w32 (st.c + t.c), w32 (st.d + t.d),
   w32 (st.e + t.e), w32 (st.f + t.f), w32 (st.g + t.g), w32 (st.h + t.h)⟩

def sha256Bytes (msg : List Nat) : Hash8 :=
  (chunksOf 64 (padMessage msg)).foldl processChunk initHash

def hexDigits : List Char := "0123456789abcdef".toList

def hexChar (n : Nat) : Char := hexDigits.getD n '0'

def toHex8 (n : Nat) : List Char :=
  [hexChar (n / 268435456 % 16), hexChar (n / 16777216 % 16), hexChar (n / 1048576 % 16),
   hexChar (n / 65536 % 16), hexChar (n / 4096 % 16), hexChar (n / 256 % 16),
   hexChar (n / 16 % 16), hexChar (n % 16)]

def sha256hex (s : String) : String :=
  let d := sha256Bytes (strBytes s)
  String.mk (toHex8 d.a ++ toHex8 d.b ++ toHex8 d.c ++ toHex8 d.d ++
             toHex8 d.e ++ toHex8 d.f ++ toHex8 d.g ++ toHex8 d.h)

/-! ## Hashing utility (`sha256Lower`, identical in both implementations) -/

/-- A small JS value universe, enough for the arguments `sha256Lower` can see. -/
inductive JSVal where
  | undef
  | null
  | str (s : String)
  | num (n : Int)
deriving DecidableEq, Repr

def jsTruthy : JSVal → Bool
  | .undef => false
  | .null => false
  | .str s => s ≠ ""
  | .num n => n ≠ 0

/-- JS `String(x)` coercion (numbers in the code are integers). -/
def jsToString : JSVal → String
  | .undef => "undefined"
  | .null => "null"
  | .str s => s
  | .num n => toString n

/-- Model of `const sha256Lower = (s) => s ? crypto.createHash('sha256').update(String(s).trim().toLowerCase()).digest('hex') : null;` -/
def sha256LowerJS (s : JSVal) : Option String :=
  if jsTruthy s then some (sha256hex (asciiLower (jsTrim (jsToString s)))) else none

def jsOfOptStr : Option String → JSVal
  | none => .null
  | some s => .str s

def sha256Lower (s : Option String) : Option String :=
  sha256LowerJS (jsOfOptStr s)

/-! ## Amount normalizer (`convertAmount`) -/

def ZERO_DECIMAL_CURRENCIES : List String :=
  ["BIF", "CLP", "DJF", "GNF", "JPY", "KMF",
   "KRW", "MGA", "PYG", "RWF", "UGX",
   "VND", "VUV", "XAF", "XOF", "XPF"]

/-- Model of `function convertAmount(amountMinor, currency)` — `none` stands for a
non-number argument (`null`/`undefined`), for which the code returns `undefined`. -/
def convertAmount (amountMinor : Option Int) (currency : String) : Option ℚ :=
  match amountMinor with
  | none => none
  | some n =>
    if asciiUpper currency ∈ ZERO_DECIMAL_CURRENCIES then some (n : ℚ)
    else some ((n : ℚ) / 100)

/-! ## Delivery client (`sendEventToMetaWithRetry`) -/

/-- Outcome of one HTTP POST attempt: a transport exception, or a response
with a status code and body (`validateStatus: () => true` means non-2xx
statuses are returned as responses, not thrown). -/
inductive Attempt where
  | throw (msg : String)
  | resp (status : Nat) (data : String)
deriving DecidableEq, Repr

def is2xx : Attempt → Bool
  | .throw _ => false
  | .resp s _ => 200 ≤ s && s < 300

def attemptData : Attempt → Option String
  | .throw _ => none
  | .resp _ d => some d

structure RetryResult where
  result : Option String
  attempts : Nat
deriving DecidableEq, Repr

/-- The `for (let attempt = 1; attempt <= retries; attempt++)` loop:
`made` attempts already performed, `rem` still allowed; the `i`-th attempt
(0-based) observes `outcomes i`. Returns `resp.data` on the first 2xx,
`null` after exhausting all attempts; exceptions are caught and retried. -/
def retryGo (outcomes : Nat → Attempt) (made : Nat) : Nat → RetryResult
  | 0 => ⟨none, made⟩
  | rem + 1 =>
    match outcomes made with
    | .resp s d =>
      if 200 ≤ s && s < 300 then ⟨some d, made + 1⟩
      else retryGo outcomes (made + 1) rem
    | .throw _ => retryGo outcomes (made + 1) rem

def defaultRetries : Nat := 3

def sendEventToMetaWithRetry (outcomes : Nat → Attempt) (retries : Nat := defaultRetries) : RetryResult :=
  retryGo outcomes 0 retries

/-! ## Conversion payload builder (`sendEventToMeta`, server.js) -/

structure UserData where
  em : Option (List String) := none
  client_ip_address : Option String := none
  client_user_agent : Option String := none
deriving DecidableEq, Repr

structure CustomData where
  currency : Option String := none
  value : Option ℚ := none
  order_id : Option String := none
  content_ids : Option (List String) := none
  num_items : Option Int := none
  content_type : Option String := none
deriving DecidableEq, Repr

structure MetaEventData where
  event_name : Option String
  event_time : Nat
  action_source : String
  event_id : Option String
  event_source_url : Option String
  user_data : UserData
  custom_data : CustomData
  test_event_code : Option String
deriving DecidableEq, Repr

structure MetaArgs where
  eventName : Option String := none
  eventId : Option String := none
  email : Option String := none
  value : Option ℚ := none
  currency : Option String := none
  sourceUrl : Option String := none
  ip : Option String := none
  ua : Option String := none
  testEventCode : Option String := none
  orderId : Option String := none
  contentIds : List String := []
  numItems : Option Int := none
deriving DecidableEq, Repr

/-- Body construction inside `sendEventToMeta` (`now` is `nowInSeconds()`). -/
def buildMetaBody (now : Nat) (a : MetaArgs) : MetaEventData :=
  { event_name := a.eventName
    event_time := now
    action_source := "website"
    event_id := if jsTruthyOpt a.eventId then a.eventId else none
    event_source_url := if jsTruthyOpt a.sourceUrl then a.sourceUrl else none
    user_data :=
      { em := if jsTruthyOpt a.email then (sha256Lower a.email).map (fun d => [d]) else none
        client_ip_address := if jsTruthyOpt a.ip then a.ip else none
        client_user_agent := if jsTruthyOpt a.ua then a.ua else none }
    custom_data :=
      { currency := if jsTruthyOpt a.currency then some (asciiUpper (a.currency.getD "")) else none
        value := a.value
        order_id := if jsTruthyOpt a.orderId then a.orderId else none
        content_ids := if a.contentIds ≠ [] then some a.contentIds else none
        num_items := if jsTruthyInt a.numItems then a.numItems else none
        content_type := if a.contentIds ≠ [] then some "product" else none }
    test_event_code := if jsTruthyOpt a.testEventCode then a.testEventCode else none }

/-! ## Legacy payload builder (`sendPurchaseToMeta`, duplicate implementation) -/

structure PurchaseArgs where
  eventId : Option String := none
  email : Option String := none
  value : Option ℚ := none
  currency : Option String := none
  sourceUrl : Option String := none
  ip : Option String := none
  ua : Option String := none
  testEventCode : Option String := none
  orderId : Option String := none
deriving DecidableEq, Repr

structure PurchaseCustomData where
  currency : String
  value : ℚ
  order_id : Option String := none
deriving DecidableEq, Repr

structure PurchaseEventData where
  event_name : String
  event_time : Nat
  action_source : String
  event_id : Option String
  event_source_url : Option String
  user_data : UserData
  custom_data : PurchaseCustomData
  test_event_code : Option String
deriving DecidableEq, Repr

/-- Body construction inside `sendPurchaseToMeta`: note `custom_data` always
carries `currency` (`String(currency || '').toUpperCase()`) and `value`
(`Number(value || 0)`), defaulting instead of omitting. -/
def sendPurchaseToMeta (now : Nat) (a : PurchaseArgs) : PurchaseEventData :=
  { event_name := "Purchase"
    event_time := now
    action_source := "website"
    event_id := if jsTruthyOpt a.eventId then a.eventId else none
    event_source_url := if jsTruthyOpt a.sourceUrl then a.sourceUrl else none
    user_data :=
      { em := if jsTruthyOpt a.email then (sha256Lower a.email).map (fun d => [d]) else none
        client_ip_address := if jsTruthyOpt a.ip then a.ip else none
        client_user_agent := if jsTruthyOpt a.ua then a.ua else none }
    custom_data :=
      { currency := asciiUpper (jsOrStr a.currency "")
        value := a.value.getD 0
        order_id := if jsTruthyOpt a.orderId then a.orderId else none }
    test_event_code := if jsTruthyOpt a.testEventCode then a.testEventCode else none }

/-! ## Stripe-side data (duck-typed event objects, flattened optional chains) -/

/-- Model of `li.price?.product`: the product identifier of a line item's price. -/
structure ItemPrice where
  product : Option String := none
deriving DecidableEq, Repr

structure LineItem where
  price : Option ItemPrice := none
  quantity : Int := 0
deriving DecidableEq, Repr

/-- Model of `session.payment_intent` after `expand`: absent, a raw id string, or an
expanded object (whose `id` may itself be absent). -/
inductive PaymentIntentRef where
  | missing
  | strRef (s : String)
  | objRef (id : Option String)
deriving DecidableEq, Repr

/-- Re-fetched checkout session (`stripe.checkout.sessions.retrieve`). -/
structure StripeSession where
  id : String
  currency : Option String := none
  amount_total : Option Int := none
  customer_details_email : Option String := none
  customer_email : Option String := none
  payment_intent : PaymentIntentRef := .missing
  line_items : Option (List LineItem) := none
deriving DecidableEq, Repr

/-- Re-fetched payment intent (`stripe.paymentIntents.retrieve`);
`charges_first_billing_email` flattens `pi.charges?.data?.[0]?.billing_details?.email`. -/
structure PaymentIntentObj where
  id : String
  currency : Option String := none
  amount : Option Int := none
  charges_first_billing_email : Option String := none
deriving DecidableEq, Repr

/-- The webhook event's `data.object`, with every field any dispatch branch
reads; optional chains (`obj.items?.data?.[0]?.price?.unit_amount`,
`obj.charges?.data?.[0]?.billing_details?.email`, ...) are flattened into
single optional fields. -/
structure StripeObj where
  id : String
  status : Option String := none
  currency : Option String := none
  amount_total : Option Int := none
  amount_paid : Option Int := none
  amount_refunded : Option Int := none
  amount_due : Option Int := none
  amount : Option Int := none
  email : Option String := none
  customer_email : Option String := none
  customer_details_email : Option String := none
  billing_details_email : Option String := none
  charges_first_billing_email : Option String := none
  items_first_unit_amount : Option Int := none
  payment_intent : Option String := none
deriving DecidableEq, Repr

structure InboundEvent where
  type : String
  obj : StripeObj
deriving DecidableEq, Repr

/-- The two provider re-fetch calls the dispatcher may make;
`Except.error` models the call throwing. -/
structure Oracles where
  fetchSession : String → Except String StripeSession
  fetchPI : String → Except String PaymentIntentObj

/-! ## Event mapper / dispatcher -/

/-- The local variables of `handleStripeWebhook` after the `switch`
(the spec's `ExtractedFacts`): initialized to
`email = null, amountMinor = null, currency = 'USD', orderId = null,
eventId = null, eventName = null, contentIds = [], numItems = null`. -/
structure Facts where
  email : Option String := none
  amountMinor : Option Int := none
  currency : String := "USD"
  orderId : Option String := none
  eventId : Option String := none
  eventName : Option String := none
  contentIds : List String := []
  numItems : Option Int := none
deriving DecidableEq, Repr

def handledEvents : List String :=
  ["checkout.session.created",
   "checkout.session.completed",
   "checkout.session.async_payment_succeeded",
   "payment_intent.succeeded",
   "invoice.payment_succeeded",
   "checkout.session.expired",
   "checkout.session.async_payment_failed",
   "customer.created",
   "customer.subscription.created",
   "customer.subscription.updated",
   "customer.subscription.deleted",
   "charge.refunded",
   "invoice.payment_failed",
   "payment_intent.payment_failed"]

def lineContentIds (items : List LineItem) : List String :=
  ((items.map (fun li => li.price.bind ItemPrice.product)).filter jsTruthyOpt).map
    (fun o => o.getD "")

def lineNumItems (items : List LineItem) : Int :=
  items.foldl (fun sum li => sum + li.quantity) 0

/-- The `checkout.session.completed` / `async_payment_succeeded` branch,
applied to the re-fetched session. -/
def extractCheckoutFacts (session : StripeSession) : Facts :=
  let base : Facts :=
    { eventName := some "Purchase"
      eventId := some session.id
      currency := jsOrStr session.currency "USD"
      amountMinor := session.amount_total
      email := jsOrO session.customer_details_email (jsOrO session.customer_email none)
      orderId := some (match session.payment_intent with
        | .strRef s => s
        | .objRef oid => jsOrStr oid session.id
        | .missing => session.id) }
  match session.line_items with
  | some items =>
    if items ≠ [] then
      { base with contentIds := lineContentIds items, numItems := some (lineNumItems items) }
    else base
  | none => base

/-- The `switch (event.type)` of `handleStripeWebhook`: produces the facts,
or `Except.error` when a blocking re-fetch throws. -/
def extractFacts (oc : Oracles) (event : InboundEvent) : Except String Facts :=
  let obj := event.obj
  if event.type = "checkout.session.created" then
    .ok { eventName := some "InitiateCheckout"
          eventId := some obj.id
          currency := asciiUpper (jsOrStr obj.currency "USD")
          amountMinor := obj.amount_total
          email := jsOrO obj.customer_details_email (jsOrO obj.customer_email none)
          orderId := some obj.id }
  else if event.type = "checkout.session.completed" ∨
          event.type = "checkout.session.async_payment_succeeded" then
    (oc.fetchSession obj.id).map extractCheckoutFacts
  else if event.type = "payment_intent.succeeded" then
    (oc.fetchPI obj.id).map fun pi =>
      { eventName := some "Purchase"
        eventId := some pi.id
        currency := jsOrStr pi.currency "USD"
        amountMinor := pi.amount
        email := jsOrO pi.charges_first_billing_email none
        orderId := some pi.id }
  else if event.type = "invoice.payment_succeeded" then
    .ok { eventName := some "Purchase"
          eventId := some obj.id
          currency := jsOrStr obj.currency "USD"
          amountMinor := obj.amount_paid
          email := jsOrO obj.customer_email none
          orderId := some obj.id }
  else if event.type = "checkout.session.expired" ∨
          event.type = "checkout.session.async_payment_failed" then
    .ok { eventName := some "AbandonCheckout"
          eventId := some obj.id
          currency := jsOrStr obj.currency "USD"
          amountMinor := obj.amount_total
          email := jsOrO obj.customer_details_email (jsOrO obj.customer_email none)
          orderId := some obj.id }
  else if event.type = "customer.created" then
    .ok { eventName := some "Lead"
          eventId := some obj.id
          email := jsOrO obj.email none }
  else if event.type = "customer.subscription.created" then
    .ok { eventName := some "Subscribe"
          eventId := some obj.id
          email := jsOrO obj.customer_email none
          orderId := some obj.id
          currency := jsOrStr obj.currency "USD"
          amountMinor := obj.items_first_unit_amount }
  else if event.type = "customer.subscription.updated" then
    .ok { eventName :=
            if obj.status = some "active" then some "RenewSubscription"
            else if obj.status = some "past_due" then some "PaymentFailed"
            else none
          eventId := some obj.id
          email := jsOrO obj.customer_email none
          orderId := some obj.id }
  else if event.type = "customer.subscription.deleted" then
    .ok { eventName := some "CancelSubscription"
          eventId := some obj.id
          email := jsOrO obj.customer_email none
          orderId := some obj.id }
  else if event.type = "charge.refunded" then
    .ok { eventName := some "Refund"
          eventId := some obj.id
          email := jsOrO obj.billing_details_email none
          currency := jsOrStr obj.currency "USD"
          amountMinor := obj.amount_refunded
          orderId := some (jsOrStr obj.payment_intent obj.id) }
  else if event.type = "invoice.payment_failed" ∨
          event.type = "payment_intent.payment_failed" then
    .ok { eventName := some "PaymentFailed"
          eventId := some obj.id
          email := jsOrO obj.customer_email (jsOrO obj.charges_first_billing_email none)
          orderId := some obj.id
          currency := jsOrStr obj.currency "USD"
          amountMinor := obj.amount_due <|> obj.amount }
  else
    .ok {}

/-! ## Webhook handler (`handleStripeWebhook`) -/

/-- The recognized environment variables. -/
structure Env where
  stripeSecret : Option String := none
  webhookSecret : Option String := none
  pixelId : Option String := none
  accessToken : Option String := none
  testEventCode : Option String := none
  eventSourceUrl : Option String := none
deriving DecidableEq, Repr

def configOK (env : Env) : Bool :=
  jsTruthyOpt env.stripeSecret && jsTruthyOpt env.webhookSecret &&
  jsTruthyOpt env.pixelId && jsTruthyOpt env.accessToken

/-- Model of `EVENT_SOURCE_URL = process.env.EVENT_SOURCE_URL || 'https://stripe.teampumpkin.in'` -/
def eventSourceURL (env : Env) : String :=
  jsOrStr env.eventSourceUrl "https://stripe.teampumpkin.in"

/-- One downstream delivery request: destination, credential, and the built body. -/
structure MetaCall where
  pixelId : String
  accessToken : String
  body : MetaEventData
deriving DecidableEq, Repr

inductive RespBody where
  | text (s : String)
  | jsonReceived
deriving DecidableEq, Repr

structure HandlerResponse where
  status : Nat
  body : RespBody
deriving DecidableEq, Repr

structure HandlerResult where
  resp : HandlerResponse
  calls : List MetaCall
deriving DecidableEq, Repr

/-- Model of `(req.headers['x-forwarded-for'] || req.socket.remoteAddress || '').split(',')[0].trim()` -/
def requestIp (xForwardedFor remoteAddress : Option String) : String :=
  jsTrim (((jsOrStr xForwardedFor (jsOrStr remoteAddress "")).splitOn ",").headD "")

/-- The `try { ... } catch ... ; res.json({received:true})` part of
`handleStripeWebhook`, reached once signature verification has succeeded:
dispatch, normalize, build, record the downstream call; any re-fetch
failure is caught; the response is `200 {received:true}` in every case. -/
def handleVerified (env : Env) (oc : Oracles)
    (xForwardedFor remoteAddress ua : Option String) (now : Nat)
    (event : InboundEvent) : HandlerResult :=
  if event.type ∉ handledEvents then ⟨⟨200, .jsonReceived⟩, []⟩
  else
    match extractFacts oc event with
    | .error _ => ⟨⟨200, .jsonReceived⟩, []⟩
    | .ok facts =>
      let ip := requestIp xForwardedFor remoteAddress
      let value := convertAmount facts.amountMinor facts.currency
      let body := buildMetaBody now
        { eventName := facts.eventName
          eventId := facts.eventId
          email := facts.email
          value := value
          currency := some facts.currency
          sourceUrl := some (eventSourceURL env)
          ip := some ip
          ua := jsOrO ua none
          testEventCode := env.testEventCode
          orderId := facts.orderId
          contentIds := facts.contentIds
          numItems := facts.numItems }
      ⟨⟨200, .jsonReceived⟩,
       [⟨env.pixelId.getD "", env.accessToken.getD "", body⟩]⟩

/-- Model of `handleStripeWebhook`: `sigResult` is the outcome of
`stripe.webhooks.constructEvent` (`Except.error` = verification threw),
`oc` the provider re-fetch calls, `now` is `nowInSeconds()`. -/
def handleStripeWebhook (env : Env) (sigResult : Except String InboundEvent)
    (oc : Oracles) (xForwardedFor remoteAddress ua : Option String) (now : Nat) :
    HandlerResult :=
  if ¬ configOK env then ⟨⟨500, .text "Server misconfigured"⟩, []⟩
  else
    match sigResult with
    | .error msg => ⟨⟨400, .text ("Webhook Error: " ++ msg)⟩, []⟩
    | .ok event => handleVerified env oc xForwardedFor remoteAddress ua now event

/-! ## Concrete data used by witnesses and counterexamples -/

set_option maxRecDepth 400000

def retryStreamExample : Nat → Attempt :=
  fun i => if i < 2 then .resp 500 "err" else .resp 200 "ok"

def eraseEm (b : MetaEventData) : MetaEventData :=
  { b with user_data := { b.user_data with em := none } }

def eraseEmP (b : PurchaseEventData) : PurchaseEventData :=
  { b with user_data := { b.user_data with em := none } }

/-- Spec-side description of which product identifier a line item
contributes: its price's product id, when present and truthy. -/
def truthyProductId (li : LineItem) : Option String :=
  (li.price.bind ItemPrice.product).bind (fun p => if p = "" then none else some p)

def itemsW : List LineItem :=
  [{ price := some { product := some "prod_A" }, quantity := 2 },
   { price := none, quantity := 1 },
   { price := some { product := some "prod_B" }, quantity := 3 }]

def sessW : StripeSession :=
  { id := "cs_w", currency := some "usd", amount_total := some 700, line_items := some itemsW }

def envW : Env :=
  { stripeSecret := some "sk_test_1", webhookSecret := some "whsec_1",
    pixelId := some "px_1", accessToken := some "tok_1" }

def ocFail : Oracles := ⟨fun _ => .error "fetch failed", fun _ => .error "fetch failed"⟩

def sessionC6 : StripeSession :=
  { id := "cs_1", currency := some "usd", amount_total := some 2500,
    customer_details_email := some "A@Example.com",
    payment_intent := .strRef "pi_1" }

def ocC6 : Oracles := ⟨fun _ => .ok sessionC6, fun _ => .error "unused"⟩

def evC6 : InboundEvent := ⟨"checkout.session.completed", { id := "cs_1" }⟩

/-! ## Sanity anchors: the SHA-256 model matches the FIPS 180-4 test vectors -/

set_option maxRecDepth 100000 in
example : sha256hex "" = "e3b0c44298fc1c149afbf4c8996fb92427ae41e4649b934ca495991b7852b855" := by decide

set_option maxRecDepth 100000 in
example : sha256hex "abc" = "ba7816bf8f01cfea414140de5dae2223b00361a396177a9cb410ff61f20015ad" := by decide

/-! ## Digest shape lemmas -/

theorem hexChar_mem (n : Nat) : hexChar n ∈ hexDigits := by
  have hl : hexDigits.length = 16 := rfl
  by_cases h : n < 16
  · unfold hexChar
    rw [List.getD_eq_getElem _ _ (by omega)]
    exact List.getElem_mem _
  · unfold hexChar
    rw [List.getD_eq_default _ _ (by omega)]
    decide

theorem toHex8_mem (n : Nat) : ∀ c ∈ toHex8 n, c ∈ hexDigits := by
  intro c hc
  simp only [toHex8, List.mem_cons, List.not_mem_nil, or_false] at hc
  rcases hc with h | h | h | h | h | h | h | h <;> (subst h; exact hexChar_mem _)

theorem string_mk_length (l : List Char) : (String.mk l).length = l.length := rfl

theorem string_mk_toList (l : List Char) : (String.mk l).toList = l := rfl

theorem sha256hex_length (s : String) : (sha256hex s).length = 64 := by
  unfold sha256hex
  rw [string_mk_length]
  simp [toHex8]

theorem sha256hex_chars (s : String) : ∀ c ∈ (sha256hex s).toList, c ∈ hexDigits := by
  intro c hc
  unfold sha256hex at hc
  rw [string_mk_toList] at hc
  simp only [List.mem_append] at hc
  rcases hc with ((((((h | h) | h) | h) | h) | h) | h) | h <;> exact toHex8_mem _ _ h

/-! ## Claim C3: amount normalizer -/

/-- C3: for every `amountMinor` and currency code: a non-number amount
normalizes to `undefined` (omitted, not zero); a currency whose
case-insensitive form lies in the fixed zero-decimal set is returned
unchanged; any other currency is divided by 100; the comparison is
case-insensitive; in particular 500 normalizes to 500 for zero-decimal
codes and to 5.00 for all other codes. -/
theorem convertAmount_spec :
    (∀ c : String, convertAmount none c = none) ∧
    (∀ (a : Int) (c : String), asciiUpper c ∈ ZERO_DECIMAL_CURRENCIES →
      convertAmount (some a) c = some (a : ℚ)) ∧
    (∀ (a : Int) (c : String), asciiUpper c ∉ ZERO_DECIMAL_CURRENCIES →
      convertAmount (some a) c = some ((a : ℚ) / 100)) ∧
    (∀ (a : Option Int) (c₁ c₂ : String), asciiUpper c₁ = asciiUpper c₂ →
      convertAmount a c₁ = convertAmount a c₂) ∧
    (∀ c : String, asciiUpper c ∈ ZERO_DECIMAL_CURRENCIES →
      convertAmount (some 500) c = some 500) ∧
    (∀ c : String, asciiUpper c ∉ ZERO_DECIMAL_CURRENCIES →
      convertAmount (some 500) c = some 5) := by
  refine ⟨fun c => rfl, ?_, ?_, ?_, ?_, ?_⟩
  · intro a c h
    simp [convertAmount, h]
  · intro a c h
    simp [convertAmount, h]
  · intro a c₁ c₂ h
    cases a with
    | none => rfl
    | some n => simp only [convertAmount, h]
  · intro c h
    simp [convertAmount, h]
  · intro c h
    simp only [convertAmount, h, if_false]
    norm_num

/-- Witness for C3 at concrete inputs: a zero-decimal code (in lowercase,
exercising case-insensitivity), a decimal code, and a missing amount. -/
theorem convertAmount_spec_witness :
    convertAmount (some 500) "jpy" = some 500 ∧
    convertAmount (some 500) "Usd" = some 5 ∧
    convertAmount none "eur" = none :=
  ⟨convertAmount_spec.2.2.2.2.1 "jpy" (by decide),
   convertAmount_spec.2.2.2.2.2 "Usd" (by decide),
   convertAmount_spec.1 "eur"⟩

/-! ## Claim C5: delivery client retry loop -/

theorem retryGo_attempts_le (oc : Nat → Attempt) (made rem : Nat) :
    (retryGo oc made rem).attempts ≤ made + rem := by
  induction rem generalizing made with
  | zero => simp [retryGo]
  | succ n ih =>
    cases hoc : oc made with
    | throw m =>
      simp only [retryGo, hoc]
      have := ih (made + 1)
      omega
    | resp s d =>
      simp only [retryGo, hoc]
      by_cases hc : (200 ≤ s && s < 300) = true
      · rw [if_pos hc]
        show made + 1 ≤ made + (n + 1)
        omega
      · rw [if_neg hc]
        have := ih (made + 1)
        omega

theorem retryGo_all_fail (oc : Nat → Attempt) (made rem : Nat)
    (h : ∀ i, i < rem → is2xx (oc (made + i)) = false) :
    retryGo oc made rem = ⟨none, made + rem⟩ := by
  induction rem generalizing made with
  | zero => simp [retryGo]
  | succ n ih =>
    have h0 := h 0 (by omega)
    simp only [Nat.add_zero] at h0
    have hrest : ∀ i, i < n → is2xx (oc (made + 1 + i)) = false := by
      intro i hi
      have heq : made + 1 + i = made + (i + 1) := by omega
      rw [heq]
      exact h (i + 1) (by omega)
    have hsum : made + 1 + n = made + (n + 1) := by omega
    cases hoc : oc made with
    | throw m =>
      simp only [retryGo, hoc]
      rw [ih (made + 1) hrest, hsum]
    | resp s d =>
      rw [hoc] at h0
      simp only [is2xx] at h0
      simp only [retryGo, hoc]
      rw [if_neg (by simp [h0]), ih (made + 1) hrest, hsum]

theorem retryGo_first_success (oc : Nat → Attempt) (made rem i : Nat)
    (hi : i < rem) (h2 : is2xx (oc (made + i)) = true)
    (hmin : ∀ j, j < i → is2xx (oc (made + j)) = false) :
    (retryGo oc made rem).result = attemptData (oc (made + i)) ∧
    (retryGo oc made rem).attempts = made + i + 1 := by
  induction rem generalizing made i with
  | zero => omega
  | succ n ih =>
    cases i with
    | zero =>
      simp only [Nat.add_zero] at h2 ⊢
      cases hoc : oc made with
      | throw m =>
        rw [hoc] at h2
        simp [is2xx] at h2
      | resp s d =>
        rw [hoc] at h2
        simp only [is2xx] at h2
        simp only [retryGo, hoc]
        rw [if_pos h2]
        simp [attemptData, hoc]
    | succ j =>
      have h0 := hmin 0 (by omega)
      simp only [Nat.add_zero] at h0
      have hshift : made + (j + 1) = made + 1 + j := by omega
      rw [hshift] at h2
      have hminshift : ∀ k, k < j → is2xx (oc (made + 1 + k)) = false := by
        intro k hk
        have heq : made + 1 + k = made + (k + 1) := by omega
        rw [heq]
        exact hmin (k + 1) (by omega)
      have hres := ih (made + 1) j (by omega) h2 hminshift
      cases hoc : oc made with
      | throw m =>
        simp only [retryGo, hoc]
        constructor
        · rw [hres.1, hshift]
        · rw [hres.2]
          omega
      | resp s d =>
        rw [hoc] at h0
        simp only [is2xx] at h0
        simp only [retryGo, hoc]
        rw [if_neg (by simp [h0])]
        constructor
        · rw [hres.1, hshift]
        · rw [hres.2]
          omega

/-- C5: the delivery client makes at most `retries` sequential attempts
(default 3), stops at the first 2xx response (returning its data after
exactly `i + 1` attempts when attempt `i` is the first 2xx), retries on
both transport exceptions and non-2xx statuses, returns a null result
without throwing after exhausting all attempts, and on the concrete
500, 500, 200 destination with `retries = 3` makes exactly 3 attempts
and succeeds. -/
theorem sendEventToMetaWithRetry_spec :
    (∀ (oc : Nat → Attempt) (retries : Nat),
      (sendEventToMetaWithRetry oc retries).attempts ≤ retries) ∧
    (∀ (oc : Nat → Attempt) (retries i : Nat), i < retries →
      is2xx (oc i) = true → (∀ j, j < i → is2xx (oc j) = false) →
      (sendEventToMetaWithRetry oc retries).result = attemptData (oc i) ∧
      (sendEventToMetaWithRetry oc retries).attempts = i + 1) ∧
    (∀ (oc : Nat → Attempt) (retries : Nat),
      (∀ i, i < retries → is2xx (oc i) = false) →
      sendEventToMetaWithRetry oc retries = ⟨none, retries⟩) ∧
    defaultRetries = 3 ∧
    sendEventToMetaWithRetry retryStreamExample 3 = ⟨some "ok", 3⟩ := by
  refine ⟨?_, ?_, ?_, rfl, by decide⟩
  · intro oc retries
    have := retryGo_attempts_le oc 0 retries
    simpa [sendEventToMetaWithRetry] using this
  · intro oc retries i hi h2 hmin
    have := retryGo_first_success oc 0 retries i hi (by simpa using h2)
      (by intro j hj; simpa using hmin j hj)
    simpa [sendEventToMetaWithRetry] using this
  · intro oc retries h
    have := retryGo_all_fail oc 0 retries (by intro j hj; simpa using h j hj)
    simpa [sendEventToMetaWithRetry] using this

/-- Witness for C5: the 500, 500, 200 destination, via the
first-2xx clause of the theorem at attempt index 2. -/
theorem sendEventToMetaWithRetry_spec_witness :
    (sendEventToMetaWithRetry retryStreamExample 3).result = some "ok" ∧
    (sendEventToMetaWithRetry retryStreamExample 3).attempts = 3 := by
  have h := sendEventToMetaWithRetry_spec.2.1 retryStreamExample 3 2
    (by decide) (by decide) (by decide)
  exact ⟨h.1.trans (by decide), h.2⟩

/-! ## Claim C8: hashing utility determinism and digest shape -/

/-- C8: inputs that normalize (trim + lowercase) identically hash
identically; the digest of a non-empty input is the 64-character
lowercase-hex rendering of the 256-bit SHA-256 of the normalized string;
absent or empty input yields absent. -/
theorem sha256Lower_spec :
    (∀ s1 s2 : String, s1 ≠ "" → s2 ≠ "" →
      asciiLower (jsTrim s1) = asciiLower (jsTrim s2) →
      sha256Lower (some s1) = sha256Lower (some s2)) ∧
    (∀ s : String, s ≠ "" →
      sha256Lower (some s) = some (sha256hex (asciiLower (jsTrim s)))) ∧
    (∀ t : String,
      (sha256hex t).length = 64 ∧ ∀ c ∈ (sha256hex t).toList, c ∈ hexDigits) ∧
    (sha256Lower none = none ∧ sha256Lower (some "") = none) := by
  refine ⟨?_, ?_, fun t => ⟨sha256hex_length t, sha256hex_chars t⟩, rfl, rfl⟩
  · intro s1 s2 h1 h2 h
    simp [sha256Lower, sha256LowerJS, jsOfOptStr, jsToString, jsTruthy, h1, h2, h]
  · intro s h
    simp [sha256Lower, sha256LowerJS, jsOfOptStr, jsToString, jsTruthy, h]

/-- Witness for C8: `"Foo "` and `"  foo"` normalize alike and hash alike,
and a concrete non-empty input hashes to the digest of its normalization. -/
theorem sha256Lower_spec_witness :
    sha256Lower (some "Foo ") = sha256Lower (some "  foo") ∧
    sha256Lower (some " A@B.C") = some (sha256hex (asciiLower (jsTrim " A@B.C"))) :=
  ⟨sha256Lower_spec.1 "Foo " "  foo" (by decide) (by decide) (by decide),
   sha256Lower_spec.2.1 " A@B.C" (by decide)⟩

/-! ## Claim C10: whitespace-only inputs hash to the digest of "" -/

/-- C10: a non-empty whitespace-only string passes the truthiness check and
trims to the empty string, so it hashes to the SHA-256 digest of "" rather
than being absent; absent is returned exactly for inputs that are falsy
before normalization (undefined, null, the empty string, the number 0). -/
theorem sha256Lower_whitespace_spec :
    (∀ s : String, s ≠ "" → jsTrim s = "" →
      sha256LowerJS (.str s) = some (sha256hex "")) ∧
    (sha256LowerJS .undef = none ∧ sha256LowerJS .null = none ∧
     sha256LowerJS (.str "") = none ∧ sha256LowerJS (.num 0) = none) ∧
    (∀ v : JSVal, jsTruthy v = true → (sha256LowerJS v).isSome = true) := by
  refine ⟨?_, ⟨rfl, rfl, rfl, rfl⟩, ?_⟩
  · intro s h1 h2
    simp [sha256LowerJS, jsTruthy, jsToString, h1, h2, asciiLower]
  · intro v hv
    simp [sha256LowerJS, hv]

/-- Witness for C10: the two-space string hashes to the digest of "". -/
theorem sha256Lower_whitespace_spec_witness :
    sha256LowerJS (.str "  ") = some (sha256hex "") :=
  sha256Lower_whitespace_spec.1 "  " (by decide) (by decide)

/-! ## Claim C4: raw email never appears in an outbound payload -/

/-- C4: in both payload builders, when an email is present the `em` field of
`user_data` holds exactly the SHA-256 hex digest of the normalized
(trimmed, lowercased) email — never the raw value — and no other part of
the payload depends on the email at all (replacing the email argument
changes nothing outside `em`). -/
theorem payload_email_only_hashed :
    (∀ (now : Nat) (a : MetaArgs), jsTruthyOpt a.email = true →
      (buildMetaBody now a).user_data.em =
        some [sha256hex (asciiLower (jsTrim (a.email.getD "")))]) ∧
    (∀ (now : Nat) (a : MetaArgs) (e : Option String),
      eraseEm (buildMetaBody now { a with email := e }) = eraseEm (buildMetaBody now a)) ∧
    (∀ (now : Nat) (a : PurchaseArgs), jsTruthyOpt a.email = true →
      (sendPurchaseToMeta now a).user_data.em =
        some [sha256hex (asciiLower (jsTrim (a.email.getD "")))]) ∧
    (∀ (now : Nat) (a : PurchaseArgs) (e : Option String),
      eraseEmP (sendPurchaseToMeta now { a with email := e }) = eraseEmP (sendPurchaseToMeta now a)) := by
  refine ⟨?_, fun now a e => rfl, ?_, fun now a e => rfl⟩
  · intro now a h
    cases he : a.email with
    | none => rw [he] at h; simp [jsTruthyOpt] at h
    | some s =>
      rw [he] at h
      simp only [jsTruthyOpt, decide_eq_true_eq] at h
      simp [buildMetaBody, he, jsTruthyOpt, sha256Lower, sha256LowerJS, jsOfOptStr,
        jsToString, jsTruthy, h]
  · intro now a h
    cases he : a.email with
    | none => rw [he] at h; simp [jsTruthyOpt] at h
    | some s =>
      rw [he] at h
      simp only [jsTruthyOpt, decide_eq_true_eq] at h
      simp [sendPurchaseToMeta, he, jsTruthyOpt, sha256Lower, sha256LowerJS, jsOfOptStr,
        jsToString, jsTruthy, h]

/-- Witness for C4: a concrete mixed-case email is stored only as the digest
of its normalization. -/
theorem payload_email_only_hashed_witness :
    (buildMetaBody 7 { email := some "A@Example.com" }).user_data.em =
      some [sha256hex (asciiLower (jsTrim "A@Example.com"))] :=
  payload_email_only_hashed.1 7 { email := some "A@Example.com" } (by decide)

/-! ## Claim C7: incremental custom_data population -/

/-- C7 counterexample: the legacy builder does NOT omit absent fields — with
no amount and no currency it still emits `custom_data.value = 0` and
`custom_data.currency = ""`, contradicting "value is omitted rather than
set to 0 when no amount is present" for that builder's payloads. -/
theorem legacy_builder_defaults_value_zero :
    (sendPurchaseToMeta 0 {}).custom_data.value = 0 ∧
    (sendPurchaseToMeta 0 {}).custom_data.currency = "" := by
  constructor <;> rfl

/-- C7 (amended): in the consolidated builder (`sendEventToMeta`) every
`custom_data` field is included exactly when its source value is
present/truthy (value: present as a number, passed through undefaulted;
numItems: truthy, so 0 is omitted) and omitted entirely otherwise, and
`content_type` is the literal "product" exactly when `contentIds` is
non-empty; the legacy builder (`sendPurchaseToMeta`) instead always emits
`currency` (uppercased, possibly empty) and `value` (defaulting to 0),
omitting only `order_id` when falsy. -/
theorem custom_data_population_spec :
    (∀ (now : Nat) (a : MetaArgs),
      ((buildMetaBody now a).custom_data.currency.isSome ↔ jsTruthyOpt a.currency = true) ∧
      ((buildMetaBody now a).custom_data.currency =
        if jsTruthyOpt a.currency then some (asciiUpper (a.currency.getD "")) else none) ∧
      ((buildMetaBody now a).custom_data.value = a.value) ∧
      ((buildMetaBody now a).custom_data.order_id =
        if jsTruthyOpt a.orderId then a.orderId else none) ∧
      ((buildMetaBody now a).custom_data.content_ids =
        if a.contentIds ≠ [] then some a.contentIds else none) ∧
      ((buildMetaBody now a).custom_data.num_items.isSome ↔ jsTruthyInt a.numItems = true) ∧
      ((buildMetaBody now a).custom_data.content_type = some "product" ↔ a.contentIds ≠ []) ∧
      ((buildMetaBody now a).custom_data.content_type = none ∨
        (buildMetaBody now a).custom_data.content_type = some "product")) ∧
    (∀ (now : Nat) (a : PurchaseArgs),
      (sendPurchaseToMeta now a).custom_data.value = a.value.getD 0 ∧
      (sendPurchaseToMeta now a).custom_data.currency = asciiUpper (jsOrStr a.currency "") ∧
      ((sendPurchaseToMeta now a).custom_data.order_id =
        if jsTruthyOpt a.orderId then a.orderId else none)) := by
  constructor
  · intro now a
    refine ⟨?_, rfl, rfl, rfl, rfl, ?_, ?_, ?_⟩
    · simp only [buildMetaBody]
      by_cases h : jsTruthyOpt a.currency = true
      · simp [h]
      · simp [Bool.not_eq_true] at h
        simp [h]
    · simp only [buildMetaBody]
      by_cases h : jsTruthyInt a.numItems = true
      · cases hn : a.numItems with
        | none => rw [hn] at h; simp [jsTruthyInt] at h
        | some n => simp [h, hn]
      · simp [Bool.not_eq_true] at h
        simp [h]
    · simp only [buildMetaBody]
      by_cases h : a.contentIds = []
      · simp [h]
      · simp [h]
    · simp only [buildMetaBody]
      by_cases h : a.contentIds = []
      · simp [h]
      · simp [h]
  · intro now a
    exact ⟨rfl, rfl, rfl⟩

/-! ## Claim C9: line-item extraction -/

theorem lineNumItems_go (items : List LineItem) (n : Int) :
    items.foldl (fun sum li => sum + li.quantity) n = n + (items.map LineItem.quantity).sum := by
  induction items generalizing n with
  | nil => simp
  | cons hd tl ih =>
    simp only [List.foldl_cons, List.map_cons, List.sum_cons, ih]
    ring

theorem lineNumItems_eq_sum (items : List LineItem) :
    lineNumItems items = (items.map LineItem.quantity).sum := by
  simp [lineNumItems, lineNumItems_go]

theorem filterChain_eq (l : List (Option String)) :
    ((l.filter jsTruthyOpt).map (fun o => o.getD "")) =
      l.filterMap (fun o => o.bind (fun p => if p = "" then none else some p)) := by
  induction l with
  | nil => rfl
  | cons o l ih =>
    cases o with
    | none => simpa [jsTruthyOpt] using ih
    | some p =>
      by_cases hpe : p = ""
      · subst hpe
        simpa [jsTruthyOpt] using ih
      · simpa [jsTruthyOpt, hpe] using ih

theorem lineContentIds_eq_filterMap (items : List LineItem) :
    lineContentIds items = items.filterMap truthyProductId := by
  unfold lineContentIds
  rw [filterChain_eq, List.filterMap_map]
  rfl

/-- C9: for a re-fetched checkout session carrying a non-empty list of line
items, the extraction sets `numItems` to the sum of all line-item
quantities and `contentIds` to the product identifiers of the items, in
order, skipping items whose identifier is absent (falsy). -/
theorem line_item_extraction_spec (session : StripeSession) (items : List LineItem)
    (hli : session.line_items = some items) (hne : items ≠ []) :
    (extractCheckoutFacts session).numItems = some ((items.map LineItem.quantity).sum) ∧
    (extractCheckoutFacts session).contentIds = items.filterMap truthyProductId := by
  unfold extractCheckoutFacts
  rw [hli]
  simp only [hne, ne_eq, not_false_iff, if_true]
  exact ⟨congrArg some (lineNumItems_eq_sum items), lineContentIds_eq_filterMap items⟩

/-- Witness for C9 at a concrete session: quantities 2 + 1 + 3 sum to 6 and
only the two present product identifiers are collected, in order. -/
theorem line_item_extraction_spec_witness :
    (extractCheckoutFacts sessW).numItems = some 6 ∧
    (extractCheckoutFacts sessW).contentIds = ["prod_A", "prod_B"] := by
  have h := line_item_extraction_spec sessW itemsW rfl (by decide)
  exact ⟨h.1.trans (by decide), h.2.trans (by decide)⟩

/-! ## Handler lemmas -/

theorem handleVerified_resp (env : Env) (oc : Oracles)
    (xff ra ua : Option String) (now : Nat) (event : InboundEvent) :
    (handleVerified env oc xff ra ua now event).resp = ⟨200, .jsonReceived⟩ := by
  unfold handleVerified
  split
  · rfl
  · split <;> rfl

theorem handleVerified_unhandled (env : Env) (oc : Oracles)
    (xff ra ua : Option String) (now : Nat) (event : InboundEvent)
    (hm : event.type ∉ handledEvents) :
    handleVerified env oc xff ra ua now event = ⟨⟨200, .jsonReceived⟩, []⟩ := by
  unfold handleVerified
  rw [if_pos hm]

theorem handleVerified_extract_error (env : Env) (oc : Oracles)
    (xff ra ua : Option String) (now : Nat) (event : InboundEvent) (err : String)
    (hx : extractFacts oc event = .error err) :
    handleVerified env oc xff ra ua now event = ⟨⟨200, .jsonReceived⟩, []⟩ := by
  unfold handleVerified
  by_cases hm : event.type ∉ handledEvents
  · rw [if_pos hm]
  · rw [if_neg hm, hx]

theorem handleVerified_extract_ok (env : Env) (oc : Oracles)
    (xff ra ua : Option String) (now : Nat) (event : InboundEvent) (facts : Facts)
    (hm : event.type ∈ handledEvents)
    (hx : extractFacts oc event = .ok facts) :
    handleVerified env oc xff ra ua now event =
      ⟨⟨200, .jsonReceived⟩,
       [⟨env.pixelId.getD "", env.accessToken.getD "",
         buildMetaBody now
           { eventName := facts.eventName
             eventId := facts.eventId
             email := facts.email
             value := convertAmount facts.amountMinor facts.currency
             currency := some facts.currency
             sourceUrl := some (eventSourceURL env)
             ip := some (requestIp xff ra)
             ua := jsOrO ua none
             testEventCode := env.testEventCode
             orderId := facts.orderId
             contentIds := facts.contentIds
             numItems := facts.numItems }⟩]⟩ := by
  unfold handleVerified
  rw [if_neg (not_not_intro hm), hx]

theorem handleStripeWebhook_ok (env : Env) (oc : Oracles)
    (xff ra ua : Option String) (now : Nat) (event : InboundEvent)
    (hcfg : configOK env = true) :
    handleStripeWebhook env (.ok event) oc xff ra ua now =
      handleVerified env oc xff ra ua now event := by
  unfold handleStripeWebhook
  rw [if_neg (by simp [hcfg])]

/-! ## Claim C2: webhook response contract -/

/-- C2: the webhook handler returns 500 with no downstream call when a
required configuration value is absent; 400 with no downstream call when
signature verification fails; and, once verification succeeds, always
200 `{received: true}` — for every event and every re-fetch/delivery
oracle outcome — with zero downstream calls both for unrecognized event
types and when the provider re-fetch throws. -/
theorem webhook_response_contract (env : Env) (oc : Oracles)
    (xff ra ua : Option String) (now : Nat) :
    (∀ sig, configOK env = false →
      handleStripeWebhook env sig oc xff ra ua now =
        ⟨⟨500, .text "Server misconfigured"⟩, []⟩) ∧
    (∀ msg, configOK env = true →
      handleStripeWebhook env (.error msg) oc xff ra ua now =
        ⟨⟨400, .text ("Webhook Error: " ++ msg)⟩, []⟩) ∧
    (∀ ev, configOK env = true →
      (handleStripeWebhook env (.ok ev) oc xff ra ua now).resp = ⟨200, .jsonReceived⟩) ∧
    (∀ ev, configOK env = true → ev.type ∉ handledEvents →
      handleStripeWebhook env (.ok ev) oc xff ra ua now = ⟨⟨200, .jsonReceived⟩, []⟩) ∧
    (∀ ev err, configOK env = true → extractFacts oc ev = .error err →
      handleStripeWebhook env (.ok ev) oc xff ra ua now = ⟨⟨200, .jsonReceived⟩, []⟩) := by
  refine ⟨?_, ?_, ?_, ?_, ?_⟩
  · intro sig hcfg
    unfold handleStripeWebhook
    rw [if_pos (by simp [hcfg])]
  · intro msg hcfg
    unfold handleStripeWebhook
    rw [if_neg (by simp [hcfg])]
  · intro ev hcfg
    rw [handleStripeWebhook_ok env oc xff ra ua now ev hcfg]
    exact handleVerified_resp env oc xff ra ua now ev
  · intro ev hcfg hm
    rw [handleStripeWebhook_ok env oc xff ra ua now ev hcfg]
    exact handleVerified_unhandled env oc xff ra ua now ev hm
  · intro ev err hcfg hx
    rw [handleStripeWebhook_ok env oc xff ra ua now ev hcfg]
    exact handleVerified_extract_error env oc xff ra ua now ev err hx

/-- Witness for C2: missing configuration gives 500; a failed signature
gives 400; an unrecognized event type gives 200 with zero calls; a
recognized type whose blocking re-fetch throws still gives 200 with zero
calls. -/
theorem webhook_response_contract_witness :
    handleStripeWebhook {} (.ok ⟨"checkout.session.completed", { id := "cs_1" }⟩)
        ocFail none none none 5 = ⟨⟨500, .text "Server misconfigured"⟩, []⟩ ∧
    handleStripeWebhook envW (.error "No signatures found") ocFail none none none 5 =
      ⟨⟨400, .text ("Webhook Error: " ++ "No signatures found")⟩, []⟩ ∧
    handleStripeWebhook envW (.ok ⟨"customer.updated", { id := "cus_1" }⟩)
        ocFail none none none 5 = ⟨⟨200, .jsonReceived⟩, []⟩ ∧
    handleStripeWebhook envW (.ok ⟨"checkout.session.completed", { id := "cs_1" }⟩)
        ocFail none none none 5 = ⟨⟨200, .jsonReceived⟩, []⟩ :=
  ⟨(webhook_response_contract {} ocFail none none none 5).1 _ (by decide),
   (webhook_response_contract envW ocFail none none none 5).2.1 "No signatures found" (by decide),
   (webhook_response_contract envW ocFail none none none 5).2.2.2.1 _ (by decide) (by decide),
   (webhook_response_contract envW ocFail none none none 5).2.2.2.2 _ "fetch failed" (by decide) rfl⟩

/-! ## Claim C1: subscription updated with an unrecognized status -/

theorem extractFacts_subUpdated (oc : Oracles) (obj : StripeObj) :
    extractFacts oc ⟨"customer.subscription.updated", obj⟩ =
      .ok { eventName :=
              if obj.status = some "active" then some "RenewSubscription"
              else if obj.status = some "past_due" then some "PaymentFailed"
              else none
            eventId := some obj.id
            email := jsOrO obj.customer_email none
            orderId := some obj.id } := rfl

/-- C1 (amended): for a `customer.subscription.updated` event whose status is
neither "active" nor "past_due", the dispatcher leaves the conversion
event name unset (`null`) but does NOT treat the event as a no-op: one
downstream delivery call is still made, whose payload carries a null
`event_name`, and the handler responds 200. -/
theorem subscriptionUpdated_otherStatus_sendsNullEventName
    (env : Env) (oc : Oracles) (obj : StripeObj) (xff ra ua : Option String) (now : Nat)
    (hcfg : configOK env = true)
    (h1 : obj.status ≠ some "active") (h2 : obj.status ≠ some "past_due") :
    (extractFacts oc ⟨"customer.subscription.updated", obj⟩ =
      .ok { eventName := none, eventId := some obj.id,
            email := jsOrO obj.customer_email none, orderId := some obj.id }) ∧
    ((handleStripeWebhook env (.ok ⟨"customer.subscription.updated", obj⟩) oc xff ra ua now).calls.map
        (fun c => c.body.event_name) = [none]) ∧
    (handleStripeWebhook env (.ok ⟨"customer.subscription.updated", obj⟩) oc xff ra ua now).resp.status
      = 200 := by
  have hx : extractFacts oc ⟨"customer.subscription.updated", obj⟩ =
      .ok { eventName := none, eventId := some obj.id,
            email := jsOrO obj.customer_email none, orderId := some obj.id } := by
    rw [extractFacts_subUpdated, if_neg h1, if_neg h2]
  refine ⟨hx, ?_, ?_⟩
  · rw [handleStripeWebhook_ok env oc xff ra ua now _ hcfg,
      handleVerified_extract_ok env oc xff ra ua now ⟨"customer.subscription.updated", obj⟩
        { eventName := none, eventId := some obj.id,
          email := jsOrO obj.customer_email none, orderId := some obj.id }
        (show "customer.subscription.updated" ∈ handledEvents by decide) hx]
    rfl
  · rw [handleStripeWebhook_ok env oc xff ra ua now _ hcfg, handleVerified_resp]

/-- Witness for C1's amended theorem at a concrete "unpaid" subscription. -/
theorem subscriptionUpdated_otherStatus_sendsNullEventName_witness :
    ((handleStripeWebhook envW
        (.ok ⟨"customer.subscription.updated", { id := "sub_2", status := some "unpaid" }⟩)
        ocFail none none none 99).calls.map (fun c => c.body.event_name) = [none]) ∧
    (handleStripeWebhook envW
        (.ok ⟨"customer.subscription.updated", { id := "sub_2", status := some "unpaid" }⟩)
        ocFail none none none 99).resp.status = 200 :=
  have h := subscriptionUpdated_otherStatus_sendsNullEventName envW ocFail
    { id := "sub_2", status := some "unpaid" } none none none 99 (by decide) (by decide) (by decide)
  ⟨h.2.1, h.2.2⟩

/-- C1 counterexample: for a "canceled" subscription update the claim says
no downstream delivery call is made; in fact exactly one call is made and
its payload's `event_name` is null/unset. -/
theorem subscriptionUpdated_canceled_makesDownstreamCall :
    (handleStripeWebhook envW
        (.ok ⟨"customer.subscription.updated", { id := "sub_1", status := some "canceled" }⟩)
        ocFail none none none 1000).calls.length = 1 ∧
    ((handleStripeWebhook envW
        (.ok ⟨"customer.subscription.updated", { id := "sub_1", status := some "canceled" }⟩)
        ocFail none none none 1000).calls.map (fun c => c.body.event_name)) = [none] := by
  constructor <;> rfl

/-! ## Claim C6: checkout.session.completed dispatch example -/


/-- C6 counterexample: at the claim's exact input the dispatcher's extracted
facts keep the currency exactly as received ("usd", lowercase) and the
email unnormalized ("A@Example.com"), contradicting the claimed
`ExtractedFacts{currencyCode: "USD", email: "a@example.com"}`
(uppercasing and normalization happen later, in the payload builder). -/
theorem checkoutCompleted_facts_counterexample :
    extractFacts ocC6 evC6 = .ok (extractCheckoutFacts sessionC6) ∧
    (extractCheckoutFacts sessionC6).currency = "usd" ∧
    ¬ (extractCheckoutFacts sessionC6).currency = "USD" ∧
    (extractCheckoutFacts sessionC6).email = some "A@Example.com" ∧
    ¬ (extractCheckoutFacts sessionC6).email = some "a@example.com" :=
  ⟨rfl, rfl, by decide, rfl, by decide⟩

/-- C6 (amended): for the claim's "checkout session completed" input
(re-fetched session with amount_total 2500, currency "usd", customer email
"A@Example.com", payment_intent "pi_1") the dispatcher extracts
conversionEventName "Purchase", externalId = session id, amountMinor 2500,
currencyCode "usd" (as received), orderId "pi_1", email "A@Example.com"
(raw), and the built payload then carries custom_data.value 25.00,
custom_data.currency "USD", and user_data hashed email
sha256("a@example.com"). -/
theorem checkoutCompleted_dispatch_example :
    extractFacts ocC6 evC6 = .ok
      { eventName := some "Purchase", eventId := some "cs_1",
        amountMinor := some 2500, currency := "usd",
        orderId := some "pi_1", email := some "A@Example.com" } ∧
    ((handleStripeWebhook envW (.ok evC6) ocC6 none none none 1000).calls.map
        (fun c => c.body.custom_data.value)) = [some 25] ∧
    ((handleStripeWebhook envW (.ok evC6) ocC6 none none none 1000).calls.map
        (fun c => c.body.custom_data.currency)) = [some "USD"] ∧
    ((handleStripeWebhook envW (.ok evC6) ocC6 none none none 1000).calls.map
        (fun c => c.body.user_data.em)) = [some [sha256hex "a@example.com"]] := by
  refine ⟨rfl, ?_, by decide, ?_⟩
  · have hv : convertAmount (some 2500) "usd" = some 25 := by
      simp only [convertAmount]
      rw [if_neg (by decide)]
      norm_num
    show [convertAmount (some 2500) "usd"] = [some 25]
    rw [hv]
  · have h : asciiLower (jsTrim "A@Example.com") = "a@example.com" := by decide
    rw [← h]
    rfl
